import Mathlib

/-!
Verification of the care-plan risk-assessment engine.

This file is a shallow embedding, in Lean 4, of the deterministic core of the
repository:

* `structure_analyzer.py` — the large-document reduction pipeline.  The Python
  module defines every function twice; the later definitions shadow the earlier
  ones, so the embedding below follows the second (effective) definitions of
  `analyze_csv_structure`, `smart_compress_csv` and `is_large_file`.
* `main.py` — `extract_daily_data`, the line-by-line signal extractor.
* `data_validation_config.py` — keyword lists and validity ranges.
* `risk_assessment.py` — the instrument scorers and the assessment aggregator
  `calculate_all_assessments`.

Modelling conventions:

* Python strings are modelled as `Text := List Char`; Python's `in`
  (substring), `str.count`, `str.split`, `str.strip`, `str.lower` are given
  executable counterparts below.  `str.lower` is modelled with `Char.toLower`,
  which agrees with Python on the ASCII texts handled here (CJK characters are
  fixed points of both).
* Python `float` arithmetic (BMI and weight-loss percentages) is modelled with
  `ℚ`.  All comparisons performed by the code at the claimed inputs are far
  from the decision thresholds, where IEEE doubles and rationals agree.
  A `float` division by zero raises in Python and is modelled with `Except`.
* Wall-clock data (`datetime.now()`-derived fields: `assessment_date`,
  `next_review_date`) and presentation-only payloads (`evidence` strings,
  `recommendations`, per-item display names, AI `confidence`/`evidence`
  annotations) are omitted from the embedded records; no control flow and no
  claim depends on them.  `missing_data` strings, which the spec treats as
  part of the contract, are embedded verbatim.
* Exceptions are modelled with `Except`: the only exception reachable inside
  the aggregator's per-instrument `try` block is the `KeyError('items')`
  raised when `_create_standard_form` returns the empty dict `{}` for a tool
  with no registered form.
-/

/-- Python strings are modelled as lists of characters. -/
abbrev Text : Type := List Char

/-- Coerce a Lean string literal to the `Text` model. -/
def txt (s : String) : Text := s.toList

/-- Python `str.lower()` (ASCII case folding; CJK characters are unchanged). -/
def pyLower (t : Text) : Text := t.map Char.toLower

/-- Python `needle in hay` substring test. -/
def containsTxt (hay needle : Text) : Bool :=
  match hay with
  | [] => needle.isEmpty
  | _ :: t => needle.isPrefixOf hay || containsTxt t needle

/-- Python `any(kw in t for kw in kws)`. -/
def anyKw (t : Text) (kws : List Text) : Bool :=
  kws.any (fun k => containsTxt t k)

/-- Helper for `countOccs`: scan with a skip counter so that occurrences are
counted non-overlapping, exactly as Python `str.count` does. -/
def countOccsAux (needle : Text) : Text → Nat → Nat
  | [], _ => 0
  | c :: rest, 0 =>
      if needle.isPrefixOf (c :: rest) then
        1 + countOccsAux needle rest (needle.length - 1)
      else
        countOccsAux needle rest 0
  | _ :: rest, skip + 1 => countOccsAux needle rest skip

/-- Python `hay.count(needle)`: non-overlapping occurrence count. -/
def countOccs (needle hay : Text) : Nat :=
  if needle.isEmpty then hay.length + 1 else countOccsAux needle hay 0

/-- Python `int(...)` on a string of decimal digits. -/
def natOfDigits (ds : Text) : Nat :=
  ds.foldl (fun a c => 10 * a + (c.toNat - ('0').toNat)) 0

/-- Python `s.split(sep)` for a one-character separator (keeps empty parts,
never returns an empty list). -/
def splitOnChar (sep : Char) : Text → List Text
  | [] => [[]]
  | c :: rest =>
      match splitOnChar sep rest with
      | [] => [[]]
      | cur :: others => if c = sep then [] :: cur :: others else (c :: cur) :: others

/-- Python `sep.join(parts)`. -/
def joinWith (sep : Text) : List Text → Text
  | [] => []
  | [l] => l
  | l :: l' :: rest => l ++ sep ++ joinWith sep (l' :: rest)

/-- The characters Python `str.strip()` and `\s` treat as whitespace. -/
def isPyWs (c : Char) : Bool :=
  c = ' ' || c = '\t' || c = '\n' || c = '\x0d' || c = '\x0b' || c = '\x0c'

/-- Python `str.strip()`. -/
def stripWs (t : Text) : Text :=
  ((t.dropWhile isPyWs).reverse.dropWhile isPyWs).reverse

/-- Maximal runs of characters satisfying `p` (used for `str.split()` with no
argument and for regex word-boundary reasoning). -/
def runsBy (p : Char → Bool) : Text → List Text
  | [] => []
  | c :: rest =>
      let r := runsBy p rest
      if p c then
        match rest with
        | [] => [[c]]
        | c' :: _ =>
            if p c' then
              match r with
              | [] => [[c]]
              | run :: rs => (c :: run) :: rs
            else [c] :: r
      else r

/-- Python `str.split()` (split on whitespace runs, dropping empties). -/
def pySplitWs (t : Text) : List Text := runsBy (fun c => !isPyWs c) t

/-- Python slice `l[0::3]`: every third element starting with the first. -/
def takeEvery3 : List α → List α
  | [] => []
  | [a] => [a]
  | [a, _] => [a]
  | a :: _ :: _ :: rest => a :: takeEvery3 rest

/-! ## `structure_analyzer.py` (second, effective definitions)

The module defines `analyze_csv_structure`, `smart_compress_csv` and
`is_large_file` twice; in Python the later definitions shadow the earlier
ones, so these are the definitions every caller (`main.py`) actually gets. -/

/-- Output of the effective `analyze_csv_structure` (second definition):
`{'total_lines', 'has_header', 'estimated_size', 'columns'}`.  Note that it
has no `recommended_compression_ratio` field. -/
structure CsvProfile where
  total_lines : Nat
  has_header : Bool
  estimated_size : Nat
  columns : List Text
deriving DecidableEq

/-- Effective `analyze_csv_structure(content)` from `structure_analyzer.py`. -/
def analyze_csv_structure (content : Text) : CsvProfile :=
  let lines := splitOnChar '\n' content
  { total_lines := lines.length
  , has_header := true
  , estimated_size := content.length
  , columns :=
      match lines with
      | [] => []
      | l :: _ => splitOnChar ',' l }

/-- Effective `smart_compress_csv(content, structure_info)` from
`structure_analyzer.py`: if the content has more than 1000 lines, keep the
header plus every third data line (`lines[1::3]`); otherwise return the
content unchanged.  The `structure_info` argument is ignored. -/
def smart_compress_csv (content : Text) (_structure_info : CsvProfile) : Text :=
  let lines := splitOnChar '\n' content
  if 1000 < lines.length then
    let header := match lines with | [] => [] | h :: _ => h
    let data_lines := takeEvery3 (lines.drop 1)
    header ++ txt "\n" ++ joinWith (txt "\n") data_lines
  else content

/-- Effective `is_large_file(content)` from `structure_analyzer.py`:
more than 500 lines or more than 100000 characters. -/
def is_large_file (content : Text) : Bool :=
  500 < (splitOnChar '\n' content).length || 100000 < content.length

/-! ## A small regex model

`main.py` uses a handful of fixed `re` patterns.  They are modelled with a
tiny regex language whose match enumeration reproduces Python's backtracking
priority order exactly: `rxMatches r s` lists every `(prefix, rest)` split of
`s` such that `r` matches `prefix`, in the order Python's engine would try
them, so the head of the list is Python's match at this position. -/

inductive Rx where
  /-- character class: one character from the list -/
  | cls (cs : List Char) : Rx
  /-- `\d{lo,hi}` (greedy) -/
  | dig (lo hi : Nat) : Rx
  /-- a literal string -/
  | lit (l : Text) : Rx
  /-- alternation `a|b` (prefers `a`) -/
  | alt (a b : Rx) : Rx
  /-- concatenation -/
  | seq (a b : Rx) : Rx
  /-- `[cs]*` (greedy) -/
  | starC (cs : List Char) : Rx
  /-- `(?:a)?` (greedy) -/
  | opt (a : Rx) : Rx

/-- Lengths `m, m-1, ..., lo` in descending (greedy-first) order. -/
def descLens (lo m : Nat) : List Nat :=
  (List.range (m + 1 - lo)).map (fun i => m - i)

/-- All `(matched, rest)` splits of `s` accepted by `r`, in Python's
backtracking priority order. -/
def rxMatches : Rx → Text → List (Text × Text)
  | .cls cs, s =>
      match s with
      | [] => []
      | c :: t => if cs.contains c then [([c], t)] else []
  | .dig lo hi, s =>
      let m := min hi (s.takeWhile Char.isDigit).length
      (descLens lo m).map (fun k => (s.take k, s.drop k))
  | .lit l, s => if l.isPrefixOf s then [(l, s.drop l.length)] else []
  | .alt a b, s => rxMatches a s ++ rxMatches b s
  | .seq a b, s =>
      (rxMatches a s).flatMap (fun pr =>
        (rxMatches b pr.2).map (fun qr => (pr.1 ++ qr.1, qr.2)))
  | .starC cs, s =>
      let m := (s.takeWhile (fun c => cs.contains c)).length
      (descLens 0 m).map (fun k => (s.take k, s.drop k))
  | .opt a, s => rxMatches a s ++ [([], s)]

/-- Python `re.search`: the match at the leftmost position that has one,
trying positions left to right. -/
def rxSearch (r : Rx) : Text → Option Text
  | [] => ((rxMatches r []).head?).map Prod.fst
  | s@(_ :: t) =>
      match (rxMatches r s).head? with
      | some pr => some pr.1
      | none => rxSearch r t

/-- The date pattern of `extract_daily_data` (`main.py`): an alternation of
`\d{1,2} sep \d{1,2} sep \d{2,4}` and `\d{4} sep \d{1,2} sep \d{1,2}` where
`sep` is the character class holding `/` and `-`.
Note: only slash and hyphen separators; no dot-separated variant. -/
def dateRx : Rx :=
  .alt
    (.seq (.dig 1 2) (.seq (.cls ['/', '-']) (.seq (.dig 1 2) (.seq (.cls ['/', '-']) (.dig 2 4)))))
    (.seq (.dig 4 4) (.seq (.cls ['/', '-']) (.seq (.dig 1 2) (.seq (.cls ['/', '-']) (.dig 1 2)))))

/-- Python's `\w` for the inputs at hand: ASCII alphanumerics, underscore,
and (approximating Unicode word characters) every non-ASCII character. -/
def pyWordChar (c : Char) : Bool :=
  c.isAlphanum || c = '_' || 128 ≤ c.toNat

/-- `re.findall(r'\b(\d{1,2})\b', line)` as numbers: the maximal word-character
runs that consist of one or two digits. -/
def boundedDigitNumbers (line : Text) : List Nat :=
  ((runsBy pyWordChar line).filter
    (fun run => decide (run.length = 1 ∨ run.length = 2) && run.all Char.isDigit)).map natOfDigits

/-- The optional unit suffix of the water-intake pattern
`(?:\s*(?:ml|ÊØ´Âçá|liter|l))?` (the second alternative is the literal
six-character sequence U+00CA U+00D8 U+00B4 U+00C2 U+00E7 U+00E1 present in
the source). -/
def waterSuffixRx : Rx :=
  .opt (.seq (.starC [' ', '\t', '\n', '\x0d', '\x0b', '\x0c'])
    (.alt (.lit (txt "ml"))
      (.alt (.lit (txt "\u00CA\u00D8\u00B4\u00C2\u00E7\u00E1"))
        (.alt (.lit (txt "liter")) (.lit (txt "l"))))))

/-- `re.findall(r'(\d{2,4})(?:\s*(?:ml|…|liter|l))?', s)` as numbers, in scan
order.  The optional suffix can never fail, so the captured group is the
greedy 2–4 digit run; scanning resumes after the consumed suffix.  The fuel
argument (initialised to the text length) only serves termination: every
recursive call strictly shortens the text. -/
def waterFindAllAux : Nat → Text → List Nat
  | 0, _ => []
  | _ + 1, [] => []
  | fuel + 1, s@(_ :: t) =>
      match (rxMatches (.dig 2 4) s).head? with
      | none => waterFindAllAux fuel t
      | some (g, rest) =>
          let rest2 :=
            match (rxMatches waterSuffixRx rest).head? with
            | some (_, r2) => r2
            | none => rest
          natOfDigits g :: waterFindAllAux fuel rest2

/-- All numbers captured by the water-intake pattern. -/
def waterFindAll (s : Text) : List Nat := waterFindAllAux s.length s

/-- `re.search(r'(\d{1,3})(?:%|percent)', s)`: the captured digit group of the
leftmost match, honouring greedy backtracking over the digit length. -/
def foodPercentSearch : Text → Option Nat
  | [] => none
  | s@(_ :: t) =>
      match
        (rxMatches (.dig 1 3) s).findSome? (fun pr =>
          if ((rxMatches (.alt (.lit (txt "%")) (.lit (txt "percent"))) pr.2).head?).isSome then
            some pr.1
          else none)
      with
      | some g => some (natOfDigits g)
      | none => foodPercentSearch t

/-- `re.search(r'(\d+)/(\d+)', s)`: numerator and denominator digit groups of
the leftmost match.  (`\d+` directly before `/` can only succeed on the
maximal digit run ending at the `/`.) -/
def fracSearch : Text → Option (Nat × Nat)
  | [] => none
  | s@(_ :: t) =>
      let r1 := s.takeWhile Char.isDigit
      match s.drop r1.length with
      | '/' :: rest =>
          let r2 := rest.takeWhile Char.isDigit
          if r1.isEmpty || r2.isEmpty then fracSearch t
          else some (natOfDigits r1, natOfDigits r2)
      | _ => fracSearch t

/-! ## `data_validation_config.py` -/

/-- `BOWEL_MOVEMENT_CONFIG['keywords']`. -/
def bowel_keywords : List Text :=
  [txt "bowel", txt "stool", txt "defecation", txt "bm", txt "toilet",
   txt "排便", txt "大便", txt "如廁", txt "便便"]

/-- `is_valid_bowel_movement`: `0 <= count <= 10`. -/
def is_valid_bowel_movement (count : Nat) : Bool := count ≤ 10

/-- `WATER_INTAKE_CONFIG['keywords']`. -/
def water_keywords : List Text :=
  [txt "water", txt "fluid", txt "drink", txt "ml", txt "liter", txt "hydration",
   txt "飲水", txt "水分", txt "毫升", txt "升", txt "液體", txt "喝水"]

/-- `is_valid_water_intake`: `100 <= amount <= 4000`. -/
def is_valid_water_intake (amount : Nat) : Bool := 100 ≤ amount && amount ≤ 4000

/-- `FOOD_INTAKE_CONFIG['keywords']`. -/
def food_keywords : List Text :=
  [txt "food", txt "eat", txt "meal", txt "intake", txt "consumption", txt "%", txt "percent",
   txt "進食", txt "食量", txt "用餐", txt "餐", txt "吃", txt "食物"]

/-- `is_valid_food_intake`: `0 <= percentage <= 100`. -/
def is_valid_food_intake (percentage : Nat) : Bool := percentage ≤ 100

/-- `INCIDENT_CONFIG['general_keywords']`. -/
def incident_general_keywords : List Text :=
  [txt "fall", txt "incident", txt "accident", txt "injury", txt "problem", txt "concern",
   txt "unusual", txt "abnormal", txt "emergency", txt "alert",
   txt "跌倒", txt "異常", txt "問題", txt "事故", txt "受傷", txt "意外", txt "緊急", txt "警報"]

/-- `INCIDENT_CONFIG['high_severity_keywords']`. -/
def incident_high_keywords : List Text :=
  [txt "severe", txt "serious", txt "emergency", txt "injury", txt "hospital", txt "doctor",
   txt "bleeding", txt "fracture", txt "unconscious",
   txt "嚴重", txt "緊急", txt "受傷", txt "醫院", txt "醫生", txt "出血", txt "骨折", txt "昏迷"]

/-- `INCIDENT_CONFIG['medium_severity_keywords']`. -/
def incident_medium_keywords : List Text :=
  [txt "minor", txt "small", txt "slight", txt "bruise", txt "scratch",
   txt "輕微", txt "小", txt "擦傷", txt "瘀傷"]

/-- `get_incident_severity(description)`. -/
def get_incident_severity (description : Text) : Text :=
  let d := pyLower description
  if anyKw d incident_high_keywords then txt "high"
  else if anyKw d incident_medium_keywords then txt "medium"
  else txt "medium"

/-! ## `extract_daily_data` (`main.py`) -/

/-- The accumulating result record of `extract_daily_data`. -/
structure DailyData where
  bowel_movements : List (Text × Nat) := []
  water_intake : List (Text × Nat) := []
  food_intake : List (Text × Nat) := []
  incidents : List (Text × Text × Text) := []
  dates : List Text := []
deriving DecidableEq

/-- Bowel-movement step: on a keyword hit, append the first valid
word-bounded 1–2 digit number of the line (first valid match wins). -/
def upd_bowel (cd line : Text) (d : DailyData) : DailyData :=
  if anyKw (pyLower line) bowel_keywords then
    match (boundedDigitNumbers line).find? is_valid_bowel_movement with
    | some n => { d with bowel_movements := d.bowel_movements ++ [(cd, n)] }
    | none => d
  else d

/-- Water-intake step: on a keyword hit, append the first valid amount found
by the water pattern on the lowercased line. -/
def upd_water (cd line : Text) (d : DailyData) : DailyData :=
  if anyKw (pyLower line) water_keywords then
    match (waterFindAll (pyLower line)).find? is_valid_water_intake with
    | some a => { d with water_intake := d.water_intake ++ [(cd, a)] }
    | none => d
  else d

/-- Food-intake step: on a keyword hit, try the percent pattern on the
lowercased line (appending only if valid), otherwise fall back to a fraction
`a/b` on the original line, converted to a truncated percentage. -/
def upd_food (cd line : Text) (d : DailyData) : DailyData :=
  if anyKw (pyLower line) food_keywords then
    match foodPercentSearch (pyLower line) with
    | some p =>
        if is_valid_food_intake p then
          { d with food_intake := d.food_intake ++ [(cd, p)] }
        else d
    | none =>
        match fracSearch line with
        | some (num, den) =>
            if 0 < den then
              let percentage := num * 100 / den
              if is_valid_food_intake percentage then
                { d with food_intake := d.food_intake ++ [(cd, percentage)] }
              else d
            else d
        | none => d
  else d

/-- Incident step: on a general-keyword hit, append the line with its
severity. -/
def upd_incident (cd line : Text) (d : DailyData) : DailyData :=
  if anyKw (pyLower line) incident_general_keywords then
    { d with incidents := d.incidents ++ [(cd, line, get_incident_severity line)] }
  else d

/-- The four per-category extractions run on a line that has a date context
(they are executed in source order; none of them touches `dates`). -/
def updateCats (cd line : Text) (d : DailyData) : DailyData :=
  upd_incident cd line (upd_food cd line (upd_water cd line (upd_bowel cd line d)))

/-- The date token found on a (raw) line, if any: the line is stripped,
empty lines yield nothing, otherwise the leftmost `dateRx` match. -/
def line_date (rawLine : Text) : Option Text :=
  let line := stripWs rawLine
  if line.isEmpty then none else rxSearch dateRx line

/-- One iteration of the `for line in lines` loop of `extract_daily_data`:
state is `(current_date, data)`. -/
def processLine (st : Option Text × DailyData) (rawLine : Text) : Option Text × DailyData :=
  let line := stripWs rawLine
  if line.isEmpty then st
  else
    let step :=
      match rxSearch dateRx line with
      | some m =>
          (some m,
           { st.2 with dates := if m ∈ st.2.dates then st.2.dates else st.2.dates ++ [m] })
      | none => (st.1, st.2)
    match step.1 with
    | none => (none, step.2)
    | some cd => (some cd, updateCats cd line step.2)

/-- The full loop state of `extract_daily_data` over all lines. -/
def extract_state (daily_log_content : Text) : Option Text × DailyData :=
  (splitOnChar '\n' daily_log_content).foldl processLine (none, {})

/-- `extract_daily_data(daily_log_content)` from `main.py`. -/
def extract_daily_data (daily_log_content : Text) : DailyData :=
  (extract_state daily_log_content).2

/-- The `if current_date not in data['dates']: append` step. -/
def insertNew (acc : List Text) (d : Text) : List Text :=
  if d ∈ acc then acc else acc ++ [d]

/-- First-seen de-duplication of a list. -/
def first_seen (l : List Text) : List Text := l.foldl insertNew []

/-! ## `risk_assessment.py`: standalone instrument scorers

`combined_text = (care_plan_text + " " + log_entries).lower()` is shared by
every scorer. -/

/-- The lowercased concatenation built at the top of every scorer. -/
def combined_text (care_plan_text log_entries : Text) : Text :=
  pyLower (care_plan_text ++ txt " " ++ log_entries)

/-- `fall_keywords` from `calculate_falls_screening`. -/
def fall_keywords : List Text :=
  [txt "fall", txt "fell", txt "trip", txt "stumble", txt "slip", txt "tumble"]

/-- `disease_keywords` from `calculate_falls_screening`. -/
def disease_keywords : List Text :=
  [txt "dementia", txt "stroke", txt "parkinson", txt "alzheimer"]

/-- `balance_keywords` from `calculate_falls_screening`. -/
def balance_keywords : List Text :=
  [txt "balance", txt "unsteady", txt "dizzy", txt "vertigo", txt "unstable", txt "wobble"]

/-- `mobility_keywords` (chair-rise) from `calculate_falls_screening`. -/
def falls_mobility_keywords : List Text :=
  [txt "difficulty standing", txt "cannot stand", txt "unable to rise", txt "help standing"]

/-- `bp_keywords` from `calculate_falls_screening`. -/
def bp_keywords : List Text :=
  [txt "blood pressure", txt "hypotension", txt "bp drop", txt "dizzy standing"]

/-- `medication_indicators` from `_count_medications`. -/
def medication_indicators : List Text :=
  [txt "tablet", txt "mg", txt "medication", txt "drug", txt "pill", txt "capsule",
   txt "paracetamol", txt "aspirin", txt "warfarin", txt "metformin", txt "insulin"]

/-- `_count_medications(text)`: sum the non-overlapping occurrence counts of
every indicator in the lowercased text, halve to compensate double counting,
cap at 10. -/
def count_medications (text : Text) : Nat :=
  let text_lower := pyLower text
  let count := (medication_indicators.map (fun ind =>
    if containsTxt text_lower ind then countOccs ind text_lower else 0)).sum
  min (count / 2) 10

/-- Falls sub-condition 1: falls history keywords. -/
def falls_history_found (cp log : Text) : Bool :=
  anyKw (combined_text cp log) fall_keywords

/-- Falls sub-condition 2: `_count_medications(care_plan_text) >= 4`
(the count uses the care-plan text only). -/
def falls_meds_met (cp : Text) : Bool :=
  4 ≤ count_medications cp

/-- Falls sub-condition 3: dementia / stroke / parkinson / alzheimer. -/
def falls_diagnosis_found (cp log : Text) : Bool :=
  anyKw (combined_text cp log) disease_keywords

/-- Falls sub-condition 4: balance-problem keywords. -/
def falls_balance_found (cp log : Text) : Bool :=
  anyKw (combined_text cp log) balance_keywords

/-- Falls sub-condition 5: chair-rise (standing-difficulty) keywords. -/
def falls_chair_found (cp log : Text) : Bool :=
  anyKw (combined_text cp log) falls_mobility_keywords

/-- The five text-detectable falls sub-conditions, in scoring order.  (The
sixth item, postural hypotension, never contributes to the score: both of its
branches only record missing data.) -/
def falls_conditions (cp log : Text) : List Bool :=
  [falls_history_found cp log, falls_meds_met cp, falls_diagnosis_found cp log,
   falls_balance_found cp log, falls_chair_found cp log]

/-- The score accumulated by `calculate_falls_screening`. -/
def falls_score (cp log : Text) : Nat :=
  (if falls_history_found cp log then 1 else 0)
  + (if falls_meds_met cp then 1 else 0)
  + (if falls_diagnosis_found cp log then 1 else 0)
  + (if falls_balance_found cp log then 1 else 0)
  + (if falls_chair_found cp log then 1 else 0)

/-- Result record of `calculate_falls_screening` (presentation-only fields
omitted, see the header comment). -/
structure FallsResult where
  tool_name : Text
  score : Nat
  max_score : Nat
  risk_level : Text
  missing_data : List Text
deriving DecidableEq

/-- The `missing_data` strings of `calculate_falls_screening`, verbatim. -/
def falls_missing_history : Text :=
  txt "Falls history in past year - Manager must verify if resident has fallen in last 12 months"

def falls_missing_meds : Text :=
  txt "Complete medication list - Manager must provide current medication count"

def falls_missing_diagnosis : Text :=
  txt "Medical diagnosis confirmation - Manager must verify if resident has Dementia, Stroke, or Parkinson\x27s"

def falls_missing_balance : Text :=
  txt "Balance assessment - Manager must confirm if resident has balance issues"

def falls_missing_chair : Text :=
  txt "Chair rise test - Manager must perform test: Can resident rise from knee-height chair without assistance?"

def falls_missing_bp_test : Text :=
  txt "Postural hypotension test - Manager must measure BP lying and standing (>20mmHg systolic or >10mmHg diastolic drop)"

def falls_missing_bp_assess : Text :=
  txt "Postural hypotension assessment - Manager must conduct blood pressure measurements"

/-- `calculate_falls_screening(care_plan_text, log_entries)`. -/
def calculate_falls_screening (cp log : Text) : FallsResult :=
  let score := falls_score cp log
  { tool_name := txt "Falls Screening"
  , score := score
  , max_score := 6
  , risk_level :=
      if 3 ≤ score then txt "High Risk"
      else if score = 2 then txt "Medium Risk"
      else txt "Low Risk"
  , missing_data :=
      (if falls_history_found cp log then [] else [falls_missing_history])
      ++ (if count_medications cp = 0 then [falls_missing_meds] else [])
      ++ (if falls_diagnosis_found cp log then [] else [falls_missing_diagnosis])
      ++ (if falls_balance_found cp log then [] else [falls_missing_balance])
      ++ (if falls_chair_found cp log then [] else [falls_missing_chair])
      ++ (if anyKw (combined_text cp log) bp_keywords
          then [falls_missing_bp_test] else [falls_missing_bp_assess]) }

/-- Result record of `calculate_ppu` (included for completeness; the
aggregator never reaches this function, see `run_tool`). -/
structure PpuResult where
  score : Nat
  risk_level : Text
deriving DecidableEq

/-- `calculate_ppu(care_plan_text, log_entries)`. -/
def calculate_ppu (cp log : Text) : PpuResult :=
  let c := combined_text cp log
  let score :=
    (if anyKw c [txt "wheelchair", txt "bedbound", txt "immobile", txt "hoist", txt "assistance walking"] then 1 else 0)
    + (if anyKw c [txt "incontinent", txt "wet", txt "soiled", txt "catheter", txt "pad"] then 1 else 0)
    + (if anyKw c [txt "poor appetite", txt "not eating", txt "weight loss", txt "malnourished", txt "refusing food"] then 1 else 0)
  { score := score
  , risk_level := if 1 ≤ score then txt "Requires Full Assessment" else txt "Low Risk" }

/-- `fasting_keywords` from `calculate_must`. -/
def must_fasting_keywords : List Text :=
  [txt "nil by mouth", txt "nbm", txt "fasting", txt "no oral intake"]

/-- `illness_keywords` from `calculate_must`. -/
def must_illness_keywords : List Text :=
  [txt "acute", txt "unwell", txt "hospital", txt "infection", txt "fever"]

/-- `missing_data` strings of `calculate_must`, verbatim. -/
def must_missing_bmi : Text :=
  txt "BMI calculation - Manager must provide current weight (kg) and height (cm)"

def must_missing_weight : Text :=
  txt "Weight loss calculation - Manager must provide weight records from 3-6 months ago"

def must_missing_acute_confirm : Text :=
  txt "Acute illness assessment - Manager must confirm if resident is acutely ill AND has had no nutritional intake for 5+ days"

def must_missing_acute_assess : Text :=
  txt "Acute illness and fasting status - Manager must assess current illness status and nutritional intake"

/-- MUST component 1 (BMI, 0–2 points): `some p` when weight and height are
truthy (non-empty list, non-`None` non-zero height, matching Python
truthiness), `none` when the data is missing.  `bmi = latest / (height/100)²`
with float arithmetic modelled in `ℚ`. -/
def must_bmi_points (weight_logs : Option (List ℚ)) (height : Option ℚ) : Option Nat :=
  match weight_logs, height with
  | some (w :: ws), some h =>
      if h ≠ 0 then
        let latest := (w :: ws).getLastD 0
        let bmi := latest / (h / 100) ^ 2
        if bmi < 18.5 then some 2
        else if 18.5 ≤ bmi ∧ bmi ≤ 20 then some 1
        else some 0
      else none
  | _, _ => none

/-- MUST component 2 (weight loss, 0–2 points): needs at least two samples;
`weight_change = (first - last) / first * 100`.  A zero first weight raises
`ZeroDivisionError` in Python, modelled as `Except.error`. -/
def must_weight_points (weight_logs : Option (List ℚ)) : Except Text (Option Nat) :=
  match weight_logs with
  | some (w :: ws) =>
      if 2 ≤ (w :: ws).length then
        if w = 0 then .error (txt "ZeroDivisionError")
        else
          let weight_change := (w - (w :: ws).getLastD 0) / w * 100
          .ok (some (if 10 < weight_change then 2
                     else if 5 ≤ weight_change ∧ weight_change ≤ 10 then 1
                     else 0))
      else .ok none
  | _ => .ok none

/-- MUST component 3 (acute illness + fasting, 0 or 2 points) together with
the missing-data notes it records. -/
def must_acute_points (combined : Text) : Nat × List Text :=
  let fasting_found := anyKw combined must_fasting_keywords
  let illness_found := anyKw combined must_illness_keywords
  if fasting_found && illness_found then (2, [])
  else if fasting_found || illness_found then (0, [must_missing_acute_confirm])
  else (0, [must_missing_acute_assess])

/-- Result record of `calculate_must` (presentation-only fields omitted). -/
structure MustResult where
  tool_name : Text
  score : Nat
  max_score : Nat
  risk_level : Text
  missing_data : List Text
deriving DecidableEq

/-- `calculate_must(care_plan_text, log_entries, weight_logs, height)`. -/
def calculate_must (cp log : Text) (weight_logs : Option (List ℚ)) (height : Option ℚ) :
    Except Text MustResult :=
  let combined := combined_text cp log
  let bmiP := must_bmi_points weight_logs height
  match must_weight_points weight_logs with
  | .error e => .error e
  | .ok wP =>
      let acute := must_acute_points combined
      let score := bmiP.getD 0 + wP.getD 0 + acute.1
      .ok
        { tool_name := txt "MUST Nutrition Screening"
        , score := score
        , max_score := 6
        , risk_level :=
            if 2 ≤ score then txt "High Risk"
            else if score = 1 then txt "Medium Risk"
            else txt "Low Risk"
        , missing_data :=
            (if bmiP.isNone then [must_missing_bmi] else [])
            ++ (if wP.isNone then [must_missing_weight] else [])
            ++ acute.2 }

/-- Resident metadata map: a dict that may carry `age` and `gender` keys. -/
structure ResidentData where
  age : Option ℤ := none
  gender : Option Text := none
deriving DecidableEq

/-- `skin_keywords` from `calculate_waterlow`. -/
def waterlow_skin_keywords : List Text :=
  [txt "bruising", txt "discoloured", txt "mottled", txt "broken skin", txt "red", txt "sore"]

/-- `mobility_keywords` from `calculate_waterlow`. -/
def waterlow_mobility_keywords : List Text :=
  [txt "bedbound", txt "chair bound", txt "immobile"]

/-- `nutrition_keywords` from `calculate_waterlow`. -/
def waterlow_nutrition_keywords : List Text :=
  [txt "poor appetite", txt "weight loss", txt "not eating", txt "malnourished"]

/-- Result record of `calculate_waterlow` (`max_score` is the string
`'Variable'` in the source; presentation-only fields omitted). -/
structure WaterlowResult where
  tool_name : Text
  score : Nat
  risk_level : Text
deriving DecidableEq

/-- Age points of `calculate_waterlow` (only scored when the `age` key is
present). -/
def waterlow_age_points (rd : Option ResidentData) : Nat :=
  match rd with
  | some d =>
      match d.age with
      | some age =>
          if 81 ≤ age then 5
          else if 75 ≤ age then 4
          else if 65 ≤ age then 3
          else 0
      | none => 0
  | none => 0

/-- Gender points of `calculate_waterlow`: female 2, anything else 1, no key
no points. -/
def waterlow_gender_points (rd : Option ResidentData) : Nat :=
  match rd with
  | some d =>
      match d.gender with
      | some g => if pyLower g = txt "female" then 2 else 1
      | none => 0
  | none => 0

/-- Continence points: +3 when `incontinent` co-occurs with `faeces`/`bowel`,
+1 for `incontinent` alone. -/
def waterlow_continence_points (c : Text) : Nat :=
  if containsTxt c (txt "incontinent") then
    if containsTxt c (txt "faeces") || containsTxt c (txt "bowel") then 3 else 1
  else 0

/-- Mobility points: +4 for bedbound / chair bound / immobile; otherwise +3
when some whitespace-separated word of the text is itself a member of
`["wheelchair", "walking aid", "assistance"]` (the source iterates over
`combined_text.split()` and tests membership in that list). -/
def waterlow_mobility_points (c : Text) : Nat :=
  if anyKw c waterlow_mobility_keywords then 4
  else if (pySplitWs c).any
      (fun w => w = txt "wheelchair" || w = txt "walking aid" || w = txt "assistance") then 3
  else 0

/-- `calculate_waterlow(care_plan_text, log_entries, resident_data)`. -/
def calculate_waterlow (cp log : Text) (resident_data : Option ResidentData) : WaterlowResult :=
  let c := combined_text cp log
  let score :=
    waterlow_age_points resident_data
    + waterlow_gender_points resident_data
    + (if anyKw c waterlow_skin_keywords then 2 else 0)
    + waterlow_continence_points c
    + waterlow_mobility_points c
    + (if anyKw c waterlow_nutrition_keywords then 1 else 0)
  { tool_name := txt "Waterlow Pressure Ulcer Assessment"
  , score := score
  , risk_level :=
      if 20 ≤ score then txt "Very High Risk"
      else if 15 ≤ score then txt "High Risk"
      else if 10 ≤ score then txt "Medium Risk"
      else txt "Low Risk" }

/-! ## `risk_assessment.py`: the standardized-form aggregator

`calculate_all_assessments` does NOT call the standalone scorers above: for
each tool it builds a standardized form (`_create_standard_form`), fills it
item by item with `_ai_detect_item_value`, sums the detected values
(`_calculate_score_from_form`) and maps the total through
`_determine_risk_level`.  The whole per-tool block runs under `try`, and the
only exception reachable inside it is the `KeyError('items')` raised when
`_create_standard_form` returns `{}` — which happens exactly for
`pressure_ulcer_ppu`, the one tool missing from the `forms` table. -/

/-- The eight keys of `self.assessment_tools`, in insertion order. -/
inductive Tool where
  | falls_screening
  | pressure_ulcer_ppu
  | must_nutrition
  | waterlow
  | abbey_pain
  | cornell_depression
  | moving_handling
  | peep
deriving DecidableEq

/-- The iteration order of `calculate_all_assessments` (Python dicts preserve
insertion order). -/
def assessment_tools : List Tool :=
  [.falls_screening, .pressure_ulcer_ppu, .must_nutrition, .waterlow,
   .abbey_pain, .cornell_depression, .moving_handling, .peep]

/-- A form item (`id` plus the mutable AI-detection fields; display name,
score range and the textual confidence/evidence annotations are
presentation-only and omitted). -/
structure FormItem where
  id : Text
  ai_value : Option Nat := none
  manager_input_required : Bool := true
deriving DecidableEq

/-- `max_score` is a number for most tools and the string `'Variable'` for
Waterlow. -/
inductive MaxScore where
  | num (n : Nat)
  | variableMax
deriving DecidableEq

/-- A standardized assessment form. -/
structure Form where
  tool_name : Text
  max_score : MaxScore
  formula : Text
  items : List FormItem
deriving DecidableEq

/-- `_create_standard_form(tool_name)`: the `forms` table.  `forms.get`
returns the empty dict `{}` for `pressure_ulcer_ppu` (no entry), modelled as
`none`; the caller's `form['items']` then raises `KeyError('items')`. -/
def create_standard_form (tool_name : Tool) : Option Form :=
  match tool_name with
  | .falls_screening => some
      { tool_name := txt "Falls Screening"
      , max_score := .num 6
      , formula := txt "Falls History(0-1) + Medications≥4(0-1) + Diagnosis(0-1) + Balance Issues(0-1) + Chair Rise(0-1) + Postural Hypotension(0-1)"
      , items :=
          [{ id := txt "falls_history" }, { id := txt "medications" }, { id := txt "diagnosis" },
           { id := txt "balance" }, { id := txt "chair_rise" }, { id := txt "postural_bp" }] }
  | .pressure_ulcer_ppu => none
  | .must_nutrition => some
      { tool_name := txt "MUST Nutrition Screening"
      , max_score := .num 6
      , formula := txt "BMI Score(0-2) + Weight Loss(0-2) + Acute Illness Fasting(0-2)"
      , items := [{ id := txt "bmi" }, { id := txt "weight_loss" }, { id := txt "acute_illness" }] }
  | .waterlow => some
      { tool_name := txt "Waterlow Pressure Ulcer Assessment"
      , max_score := .variableMax
      , formula := txt "Age + Gender + BMI + Skin + Mobility + Nutrition + Continence + Special Conditions"
      , items :=
          [{ id := txt "age" }, { id := txt "gender" }, { id := txt "skin_condition" },
           { id := txt "mobility" }, { id := txt "continence" }, { id := txt "nutrition" }] }
  | .abbey_pain => some
      { tool_name := txt "Abbey Pain Scale"
      , max_score := .num 18
      , formula := txt "Vocalisation(0-3) + Facial(0-3) + Body Language(0-3) + Behavioural(0-3) + Physiological(0-3) + Physical(0-3)"
      , items :=
          [{ id := txt "vocalisation" }, { id := txt "facial" }, { id := txt "body_language" },
           { id := txt "behavioural" }, { id := txt "physiological" }, { id := txt "physical" }] }
  | .cornell_depression => some
      { tool_name := txt "Cornell Depression Scale"
      , max_score := .num 38
      , formula := txt "Mood Signs(0-8) + Behavioural(0-8) + Physical(0-6) + Cyclic Functions(0-8) + Ideational(0-8)"
      , items :=
          [{ id := txt "mood_signs" }, { id := txt "behavioural_dist" }, { id := txt "physical_signs" },
           { id := txt "cyclic_functions" }, { id := txt "ideational" }] }
  | .moving_handling => some
      { tool_name := txt "Moving and Handling Assessment"
      , max_score := .num 5
      , formula := txt "Maximum risk level across all activities (Standing, Walking, Transferring, Personal Care)"
      , items :=
          [{ id := txt "standing" }, { id := txt "walking" }, { id := txt "transferring" },
           { id := txt "personal_care" }] }
  | .peep => some
      { tool_name := txt "Personal Emergency Evacuation Plan"
      , max_score := .num 4
      , formula := txt "Single risk level assessment (1=Low, 2=Medium, 3=High, 4=Severe)"
      , items := [{ id := txt "evacuation_ability" }] }

/-- The keyword set of the `medications` detection rule in
`_ai_detect_item_value` (note: six indicators, not the eleven of
`_count_medications`). -/
def med_rule_keywords : List Text :=
  [txt "tablet", txt "mg", txt "medication", txt "drug", txt "pill", txt "capsule"]

/-- `_ai_detect_item_value(item_id, combined_text, weight_logs, height,
resident_data)`, reduced to the detected value (`None` = manager input
required; confidence and evidence strings are presentation-only).  Only the
rules listed in `detection_rules` exist:

* `falls_history`, `diagnosis`, `balance`, `chair_rise`: keyword rules with
  `score_if_found = 1`, otherwise `None`;
* `medications`: count-based, threshold 4, `score_if_above = 1`, else `None`;
* `bmi`: numeric, needs truthy weight list and height;
* `vocalisation`: a keyword rule whose dict has NO `score_if_found` /
  `score_if_not_found` keys, so `.get` yields `None` on both branches;
* every other id: no rule, `None`.

The `resident_data` argument is accepted but used by no rule. -/
def ai_detect_item_value (item_id : Text) (combined : Text)
    (weight_logs : Option (List ℚ)) (height : Option ℚ)
    (_resident_data : Option ResidentData) : Option Nat :=
  if item_id = txt "falls_history" then
    if anyKw combined fall_keywords then some 1 else none
  else if item_id = txt "medications" then
    let count := (med_rule_keywords.map (fun kw => countOccs kw combined)).sum
    if 4 ≤ count then some 1 else none
  else if item_id = txt "diagnosis" then
    if anyKw combined disease_keywords then some 1 else none
  else if item_id = txt "balance" then
    if anyKw combined balance_keywords then some 1 else none
  else if item_id = txt "chair_rise" then
    if anyKw combined falls_mobility_keywords then some 1 else none
  else if item_id = txt "bmi" then
    match weight_logs, height with
    | some (w :: ws), some h =>
        if h ≠ 0 then
          let latest := (w :: ws).getLastD 0
          let bmi := latest / (h / 100) ^ 2
          if bmi < 18.5 then some 2
          else if 18.5 ≤ bmi ∧ bmi ≤ 20 then some 1
          else some 0
        else none
    | _, _ => none
  else if item_id = txt "vocalisation" then none
  else none

/-- `_fill_form_with_ai_data(form, care_plan_text, log_entries, weight_logs,
height, resident_data)`. -/
def fill_form_with_ai_data (form : Form) (cp log : Text)
    (weight_logs : Option (List ℚ)) (height : Option ℚ)
    (resident_data : Option ResidentData) : Form :=
  let combined := combined_text cp log
  { form with
    items := form.items.map (fun item =>
      let v := ai_detect_item_value item.id combined weight_logs height resident_data
      { item with ai_value := v, manager_input_required := v.isNone }) }

/-- Output of `_calculate_score_from_form`. -/
structure FormScore where
  total_score : Nat
  ai_filled_count : Nat
  missing_count : Nat
deriving DecidableEq

/-- `_calculate_score_from_form(tool_name, form)`. -/
def calculate_score_from_form (form : Form) : FormScore :=
  form.items.foldl
    (fun acc item =>
      match item.ai_value with
      | some v =>
          { acc with total_score := acc.total_score + v,
                     ai_filled_count := acc.ai_filled_count + 1 }
      | none => { acc with missing_count := acc.missing_count + 1 })
    { total_score := 0, ai_filled_count := 0, missing_count := 0 }

/-- `_determine_risk_level(tool_name, score)`: per-tool lookup tables with a
`'Medium Risk'` default, generic banding otherwise. -/
def determine_risk_level (tool_name : Tool) (score : Nat) : Text :=
  match tool_name with
  | .falls_screening =>
      -- table {0,1: Low, 2: Medium, 3..6: High}, default 'Medium Risk'
      if score ≤ 1 then txt "Low Risk"
      else if score = 2 then txt "Medium Risk"
      else if score ≤ 6 then txt "High Risk"
      else txt "Medium Risk"
  | .must_nutrition =>
      -- table {0: Low, 1: Medium, 2..6: High}, default 'Medium Risk'
      if score = 0 then txt "Low Risk"
      else if score = 1 then txt "Medium Risk"
      else if score ≤ 6 then txt "High Risk"
      else txt "Medium Risk"
  | .abbey_pain =>
      -- table {0..2: No Pain, 3..7: Mild, 8..13: Moderate, 14..18: Severe}
      if score ≤ 2 then txt "No Pain"
      else if score ≤ 7 then txt "Mild Pain"
      else if score ≤ 13 then txt "Moderate Pain"
      else if score ≤ 18 then txt "Severe Pain"
      else txt "Medium Risk"
  | _ =>
      -- generic: 0 Low, <=2 Medium, else High
      if score = 0 then txt "Low Risk"
      else if score ≤ 2 then txt "Medium Risk"
      else txt "High Risk"

/-- The per-tool record stored under `results['assessments'][tool_name]` on
the success path (wall-clock `next_review_date` omitted). -/
structure ToolAssessment where
  tool_name : Text
  form_items : List FormItem
  score : Nat
  max_score : MaxScore
  risk_level : Text
  ai_filled_items : Nat
  manager_required_items : Nat
  calculation_formula : Text
deriving DecidableEq

/-- An entry of the `assessments` mapping: a successful record, or the error
record `{'error': msg, 'score': s, 'risk_level': rl}` written by the
`except` handler. -/
inductive ToolEntry where
  | ok (a : ToolAssessment)
  | err (msg : Text) (score : Nat) (risk_level : Text)
deriving DecidableEq

/-- The body of the per-tool `try` block of `calculate_all_assessments`,
up to (but not including) the summary bookkeeping.  `weight_logs` and
`height` are forwarded only for `must_nutrition`; every other tool gets
`None, None`, exactly as in the source. -/
def run_tool (t : Tool) (cp log : Text) (weight_logs : Option (List ℚ))
    (height : Option ℚ) (resident_data : Option ResidentData) :
    Except Text ToolAssessment :=
  match create_standard_form t with
  | none => .error (txt "\x27items\x27")   -- str(KeyError('items'))
  | some form =>
      let filled :=
        if t = .must_nutrition then
          fill_form_with_ai_data form cp log weight_logs height resident_data
        else
          fill_form_with_ai_data form cp log none none resident_data
      let scored := calculate_score_from_form filled
      .ok
        { tool_name := filled.tool_name
        , form_items := filled.items
        , score := scored.total_score
        , max_score := filled.max_score
        , risk_level := determine_risk_level t scored.total_score
        , ai_filled_items := scored.ai_filled_count
        , manager_required_items := scored.missing_count
        , calculation_formula := filled.formula }

/-- What ends up in `results['assessments'][t]` for tool `t`. -/
def entry_of (cp log : Text) (weight_logs : Option (List ℚ)) (height : Option ℚ)
    (resident_data : Option ResidentData) (t : Tool) : ToolEntry :=
  match run_tool t cp log weight_logs height resident_data with
  | .ok a => .ok a
  | .error e => .err (txt "Form creation error: " ++ e) 0 (txt "Unable to assess")

/-- The coarse high bucket of the summary: substring test for `high` or
`severe` on the lowercased risk level. -/
def risk_is_high (risk_level : Text) : Bool :=
  containsTxt (pyLower risk_level) (txt "high") || containsTxt (pyLower risk_level) (txt "severe")

/-- The coarse medium bucket: substring test for `medium` or `moderate`. -/
def risk_is_medium (risk_level : Text) : Bool :=
  containsTxt (pyLower risk_level) (txt "medium") || containsTxt (pyLower risk_level) (txt "moderate")

/-- A priority alert appended to `results['summary']['priority_alerts']`. -/
structure Alert where
  tool : Tool
  score : Nat
  risk_level : Text
  alert : Text
deriving DecidableEq

/-- The alert record built for a high-risk tool with a nonzero score. -/
def mkAlert (t : Tool) (a : ToolAssessment) : Alert :=
  { tool := t
  , score := a.score
  , risk_level := a.risk_level
  , alert := txt "HIGH RISK: " ++ a.tool_name ++ txt " score " ++ Nat.toDigits 10 a.score }

/-- The alert (if any) that tool `t` contributes. -/
def alert_of (cp log : Text) (weight_logs : Option (List ℚ)) (height : Option ℚ)
    (resident_data : Option ResidentData) (t : Tool) : Option Alert :=
  match run_tool t cp log weight_logs height resident_data with
  | .ok a =>
      if risk_is_high a.risk_level then
        if 0 < a.score then some (mkAlert t a) else none
      else none
  | .error _ => none

/-- `results['summary']`. -/
structure ReportSummary where
  high_risk_count : Nat := 0
  medium_risk_count : Nat := 0
  low_risk_count : Nat := 0
  priority_alerts : List Alert := []
deriving DecidableEq

/-- The whole report (`assessment_date` is wall-clock and omitted). -/
structure AssessmentReport where
  assessments : List (Tool × ToolEntry) := []
  summary : ReportSummary := {}
deriving DecidableEq

/-- One iteration of the tool loop in `calculate_all_assessments`. -/
def agg_step (cp log : Text) (weight_logs : Option (List ℚ)) (height : Option ℚ)
    (resident_data : Option ResidentData) (st : AssessmentReport) (t : Tool) :
    AssessmentReport :=
  match run_tool t cp log weight_logs height resident_data with
  | .ok a =>
      { assessments := st.assessments ++ [(t, ToolEntry.ok a)]
      , summary :=
          if risk_is_high a.risk_level then
            { st.summary with
              high_risk_count := st.summary.high_risk_count + 1
              priority_alerts :=
                if 0 < a.score then st.summary.priority_alerts ++ [mkAlert t a]
                else st.summary.priority_alerts }
          else if risk_is_medium a.risk_level then
            { st.summary with medium_risk_count := st.summary.medium_risk_count + 1 }
          else
            { st.summary with low_risk_count := st.summary.low_risk_count + 1 } }
  | .error e =>
      { st with
        assessments := st.assessments ++
          [(t, ToolEntry.err (txt "Form creation error: " ++ e) 0 (txt "Unable to assess"))] }

/-- `calculate_all_assessments(care_plan_text, log_entries, weight_logs,
height, resident_data)`. -/
def calculate_all_assessments (cp log : Text) (weight_logs : Option (List ℚ))
    (height : Option ℚ) (resident_data : Option ResidentData) : AssessmentReport :=
  assessment_tools.foldl (agg_step cp log weight_logs height resident_data) {}

/-! ## Concrete inputs used by witnesses and counterexamples -/

/-- A care plan listing five medications (heuristic count 7 ≥ 4) and a
dementia diagnosis, with no other falls-screening keywords. -/
def c2_care_plan : Text :=
  txt "medications: paracetamol 500mg tablet, aspirin 75mg tablet, warfarin 3mg tablet, metformin 500mg tablet, insulin injection daily. dementia diagnosis."

/-- A log recording a fall and nothing else. -/
def c2_log : Text := txt "resident fell twice this week."

/-- A care plan containing `bedbound` and `incontinent of urine` and no other
Waterlow scoring keyword. -/
def c4_care_plan : Text := txt "resident is bedbound and incontinent of urine"

/-- The lines of an oversized tabular input: header `h`, then 1000 identical
`x` rows and a distinct final row `z` (1002 lines in total). -/
def c5_lines : List Text := txt "h" :: (List.replicate 1000 (txt "x") ++ [txt "z"])

/-- The oversized tabular input itself. -/
def c5_content : Text := joinWith (txt "\n") c5_lines

/-- A small two-line CSV. -/
def c6_content : Text := txt "date,bowel\n1/1/24,2"

/-- 502 one-character lines. -/
def c7_lines : List Text := List.replicate 502 (txt "a")

/-- 1003 characters in total, far below 50000, yet gated as large. -/
def c7_content : Text := joinWith (txt "\n") c7_lines

/-- A small single-line document. -/
def c7_small : Text := txt "a,b,c"

/-- A log line carrying a dot-separated date token. -/
def c8_log : Text := txt "note 12.03.2024"

/-! ## Helper lemmas -/

/-- Reduction is the identity on inputs of at most 1000 lines. -/
theorem smart_compress_small (content : Text) (info : CsvProfile)
    (h : (splitOnChar '\n' content).length ≤ 1000) :
    smart_compress_csv content info = content := by
  unfold smart_compress_csv
  rw [if_neg]
  omega

/-- `takeEvery3` keeps `⌈n/3⌉` of `n` elements. -/
theorem takeEvery3_length (l : List α) : (takeEvery3 l).length = (l.length + 2) / 3 := by
  induction l using takeEvery3.induct with
  | case1 => simp [takeEvery3]
  | case2 a => simp [takeEvery3]
  | case3 a b => simp [takeEvery3]
  | case4 a b c rest ih =>
      simp only [takeEvery3, List.length_cons, ih]
      omega

/-- `takeEvery3` always keeps the first element. -/
theorem takeEvery3_head (l : List α) : (takeEvery3 l).head? = l.head? := by
  match l with
  | [] => simp [takeEvery3]
  | [a] => simp [takeEvery3]
  | [a, _] => simp [takeEvery3]
  | a :: _ :: _ :: rest => simp [takeEvery3]


/-- `containsTxt` decides the infix relation. -/
theorem containsTxt_iff (hay needle : Text) :
    containsTxt hay needle = true ↔ needle <:+: hay := by
  induction hay with
  | nil =>
      simp [containsTxt, List.isEmpty_iff]
  | cons c t ih =>
      simp [containsTxt, ih, List.infix_cons_iff, List.isPrefixOf_iff_prefix, or_comm]

/-- Substring containment is transitive through an intermediate text. -/
theorem containsTxt_of_infix (hay big small : Text)
    (h : containsTxt hay big = true) (hs : small <:+: big) :
    containsTxt hay small = true := by
  rw [containsTxt_iff] at h ⊢
  exact hs.trans h

/-- Every tool is in the fixed iteration list. -/
theorem mem_assessment_tools (t : Tool) : t ∈ assessment_tools := by
  cases t <;> simp [assessment_tools]

/-- The assessments mapping produced by the fold: one entry per tool, in
order. -/
theorem agg_assessments_eq (cp log : Text) (wl : Option (List ℚ)) (h : Option ℚ)
    (rd : Option ResidentData) :
    ∀ (ts : List Tool) (st : AssessmentReport),
      (ts.foldl (agg_step cp log wl h rd) st).assessments
        = st.assessments ++ ts.map (fun t => (t, entry_of cp log wl h rd t)) := by
  intro ts
  induction ts with
  | nil => intro st; simp
  | cons t ts ih =>
      intro st
      rw [List.foldl_cons, ih]
      have hstep : (agg_step cp log wl h rd st t).assessments
          = st.assessments ++ [(t, entry_of cp log wl h rd t)] := by
        unfold agg_step entry_of
        cases run_tool t cp log wl h rd <;> simp
      simp [hstep]

/-- The priority alerts produced by the fold. -/
theorem agg_alerts_eq (cp log : Text) (wl : Option (List ℚ)) (h : Option ℚ)
    (rd : Option ResidentData) :
    ∀ (ts : List Tool) (st : AssessmentReport),
      (ts.foldl (agg_step cp log wl h rd) st).summary.priority_alerts
        = st.summary.priority_alerts ++ ts.filterMap (alert_of cp log wl h rd) := by
  intro ts
  induction ts with
  | nil => intro st; simp
  | cons t ts ih =>
      intro st
      rw [List.foldl_cons, ih]
      have hstep : (agg_step cp log wl h rd st t).summary.priority_alerts
          = st.summary.priority_alerts ++ (alert_of cp log wl h rd t).toList := by
        unfold agg_step alert_of
        cases run_tool t cp log wl h rd with
        | error e => simp
        | ok a =>
            by_cases hh : risk_is_high a.risk_level
            · by_cases hs : 0 < a.score <;> simp [hh, hs]
            · by_cases hm : risk_is_medium a.risk_level <;> simp [hh, hm]
      cases hao : alert_of cp log wl h rd t <;> simp [hstep, hao]

/-- The bowel step does not touch `dates`. -/
theorem upd_bowel_dates (cd line : Text) (d : DailyData) :
    (upd_bowel cd line d).dates = d.dates := by
  unfold upd_bowel
  split
  · split <;> rfl
  · rfl

/-- The water step does not touch `dates`. -/
theorem upd_water_dates (cd line : Text) (d : DailyData) :
    (upd_water cd line d).dates = d.dates := by
  unfold upd_water
  split
  · split <;> rfl
  · rfl

/-- The food step does not touch `dates`. -/
theorem upd_food_dates (cd line : Text) (d : DailyData) :
    (upd_food cd line d).dates = d.dates := by
  unfold upd_food
  split
  · split
    · split <;> rfl
    · split
      · split
        · dsimp only
          split <;> rfl
        · rfl
      · rfl
  · rfl

/-- The incident step does not touch `dates`. -/
theorem upd_incident_dates (cd line : Text) (d : DailyData) :
    (upd_incident cd line d).dates = d.dates := by
  unfold upd_incident
  split <;> rfl

/-- None of the per-category extractions touches `dates`. -/
theorem updateCats_dates (cd line : Text) (d : DailyData) :
    (updateCats cd line d).dates = d.dates := by
  unfold updateCats
  rw [upd_incident_dates, upd_food_dates, upd_water_dates, upd_bowel_dates]

/-- One loop iteration changes `dates` exactly by the first-seen insertion of
the line's date match (if any). -/
theorem processLine_dates (st : Option Text × DailyData) (rawLine : Text) :
    (processLine st rawLine).2.dates =
      match line_date rawLine with
      | some m => insertNew st.2.dates m
      | none => st.2.dates := by
  unfold processLine line_date insertNew
  by_cases he : (stripWs rawLine).isEmpty
  · simp [he]
  · simp only [he, if_false]
    cases hm : rxSearch dateRx (stripWs rawLine) with
    | none =>
        cases hc : st.1 <;> simp [hc, updateCats_dates]
    | some m =>
        simp [updateCats_dates]

/-- One loop iteration updates the current date context to the line's date
match when there is one, and keeps it otherwise. -/
theorem processLine_cur (st : Option Text × DailyData) (rawLine : Text) :
    (processLine st rawLine).1 = (line_date rawLine).or st.1 := by
  unfold processLine line_date
  by_cases he : (stripWs rawLine).isEmpty
  · simp [he]
  · simp only [he, if_false]
    cases hm : rxSearch dateRx (stripWs rawLine) with
    | none => cases hc : st.1 <;> simp [hc]
    | some m => simp

/-- The dates accumulated by the loop are the first-seen fold of the per-line
date matches. -/
theorem extract_dates_fold :
    ∀ (lines : List Text) (st : Option Text × DailyData),
      ((lines.foldl processLine st).2).dates
        = (lines.filterMap line_date).foldl insertNew st.2.dates := by
  intro lines
  induction lines with
  | nil => intro st; rfl
  | cons ln rest ih =>
      intro st
      rw [List.foldl_cons, ih]
      cases hd : line_date ln with
      | none =>
          have := processLine_dates st ln
          rw [hd] at this
          simp [hd, this]
      | some m =>
          have := processLine_dates st ln
          rw [hd] at this
          simp [hd, this]

/-- `getLast?` of a cons, phrased through `Option.or` with a default. -/
theorem getLast?_cons_or (m : α) (l : List α) (o : Option α) :
    ((m :: l).getLast?).or o = (l.getLast?).or ((some m).or o) := by
  cases l with
  | nil => rfl
  | cons y ys =>
      rw [List.getLast?_cons_cons]
      cases hl : (y :: ys).getLast? with
      | none =>
          rw [List.getLast?_eq_none_iff] at hl
          exact absurd hl (by simp)
      | some z => rfl

/-- The final current date context is the last per-line date match. -/
theorem extract_cur_fold :
    ∀ (lines : List Text) (st : Option Text × DailyData),
      (lines.foldl processLine st).1
        = ((lines.filterMap line_date).getLast?).or st.1 := by
  intro lines
  induction lines with
  | nil => intro st; rfl
  | cons ln rest ih =>
      intro st
      rw [List.foldl_cons, ih, processLine_cur]
      cases hd : line_date ln with
      | none => simp [List.filterMap_cons, hd]
      | some m =>
          simp only [List.filterMap_cons, hd]
          exact (getLast?_cons_or m (rest.filterMap line_date) st.1).symm

/-- Folding `insertNew` preserves (and creates) `Nodup`. -/
theorem nodup_foldl_insertNew :
    ∀ (l : List Text) (acc : List Text), acc.Nodup → (l.foldl insertNew acc).Nodup := by
  intro l
  induction l with
  | nil => intro acc h; exact h
  | cons d rest ih =>
      intro acc h
      rw [List.foldl_cons]
      apply ih
      unfold insertNew
      by_cases hd : d ∈ acc
      · simp [hd, h]
      · simp [hd, List.nodup_append, h]

/-! ## Claims -/

/-- C1: for every pair of input texts (together with any optional weight
series, height and resident metadata), `calculate_all_assessments` returns a
report whose assessments mapping lists all eight instruments in the fixed
order, each entry being either a successful instrument record or an error
record with score 0 and risk level `Unable to assess`.  The embedding is
total and models the only reachable per-instrument exception with `Except`,
which the aggregator converts to the error entry: the call never raises. -/
theorem C1_aggregator_never_raises (cp log : Text) (wl : Option (List ℚ))
    (h : Option ℚ) (rd : Option ResidentData) :
    ((calculate_all_assessments cp log wl h rd).assessments.map Prod.fst = assessment_tools)
    ∧ ∀ p ∈ (calculate_all_assessments cp log wl h rd).assessments,
        (∃ a, p.2 = ToolEntry.ok a)
        ∨ ∃ msg, p.2 = ToolEntry.err msg 0 (txt "Unable to assess") := by
  constructor
  · rw [calculate_all_assessments, agg_assessments_eq]
    simp [Function.comp_def]
  · intro p hp
    rw [calculate_all_assessments, agg_assessments_eq] at hp
    simp only [AssessmentReport.assessments, List.nil_append, List.mem_map] at hp
    obtain ⟨t, _, hpe⟩ := hp
    rw [← hpe]
    unfold entry_of
    cases run_tool t cp log wl h rd with
    | ok a => exact Or.inl ⟨a, rfl⟩
    | error e => exact Or.inr ⟨txt "Form creation error: " ++ e, rfl⟩

/-- C2: the Falls Screening score is always at most 6 and equals the number
of detected sub-conditions; on the concrete spec example (a log containing
`fell twice`, a care plan listing five medications and a dementia diagnosis)
the score is exactly 3 and the three undetected items (balance, chair rise,
postural hypotension) are the `missing_data` entries. -/
theorem C2_falls_score_is_condition_count :
    (∀ cp log : Text,
        (calculate_falls_screening cp log).score = (falls_conditions cp log).count true
        ∧ (calculate_falls_screening cp log).score ≤ 6)
    ∧ (calculate_falls_screening c2_care_plan c2_log).score = 3
    ∧ (calculate_falls_screening c2_care_plan c2_log).missing_data
        = [falls_missing_balance, falls_missing_chair, falls_missing_bp_assess] := by
  refine ⟨fun cp log => ?_, by decide, by decide⟩
  have hs : (calculate_falls_screening cp log).score = falls_score cp log := rfl
  rw [hs]
  unfold falls_score falls_conditions
  cases h1 : falls_history_found cp log <;> cases h2 : falls_meds_met cp <;>
    cases h3 : falls_diagnosis_found cp log <;> cases h4 : falls_balance_found cp log <;>
    cases h5 : falls_chair_found cp log <;> simp

/-- C3: with `weight_logs = [70, 61]` and `height = 170`, and any care-plan /
log text in which the fasting and acute-illness keyword groups do not
co-occur, `calculate_must` gives the BMI component 0 points (BMI ≈ 21.1 >
20), the weight-loss component 2 points (≈ 12.9 % > 10 %), a total score of
2, and the risk level `High Risk`. -/
theorem C3_must_example (cp log : Text)
    (hno : (anyKw (combined_text cp log) must_fasting_keywords
            && anyKw (combined_text cp log) must_illness_keywords) = false) :
    must_bmi_points (some [70, 61]) (some 170) = some 0
    ∧ must_weight_points (some [70, 61]) = .ok (some 2)
    ∧ ∃ r, calculate_must cp log (some [70, 61]) (some 170) = .ok r
        ∧ r.score = 2 ∧ r.risk_level = txt "High Risk" := by
  have hb : must_bmi_points (some [70, 61]) (some 170) = some 0 := by
    unfold must_bmi_points; norm_num
  have hw : must_weight_points (some [70, 61]) = .ok (some 2) := by
    unfold must_weight_points; norm_num
  have hacute : (must_acute_points (combined_text cp log)).1 = 0 := by
    unfold must_acute_points
    simp only [hno, Bool.false_eq_true, if_false]
    split <;> rfl
  refine ⟨hb, hw, ?_⟩
  unfold calculate_must
  rw [hw]
  simp only [hb, hacute, Option.getD_some]
  refine ⟨_, rfl, by norm_num, by norm_num⟩

/-- C3 witness: empty texts have no fasting/illness keyword co-occurrence and
realize the claimed scores. -/
theorem C3_must_example_witness :
    must_bmi_points (some [70, 61]) (some 170) = some 0
    ∧ must_weight_points (some [70, 61]) = .ok (some 2)
    ∧ ∃ r, calculate_must (txt "") (txt "") (some [70, 61]) (some 170) = .ok r
        ∧ r.score = 2 ∧ r.risk_level = txt "High Risk" :=
  C3_must_example (txt "") (txt "") (by decide)

/-- C4: with resident metadata `{age: 85, gender: "female"}` and input text
containing `bedbound` and `incontinent of urine` but no other scoring
keyword, `calculate_waterlow` scores 12 (age 5 + gender 2 + mobility 4 +
urinary continence 1) and assigns `Medium Risk`. -/
theorem C4_waterlow_example (cp log : Text)
    (h1 : containsTxt (combined_text cp log) (txt "bedbound") = true)
    (h2 : containsTxt (combined_text cp log) (txt "incontinent of urine") = true)
    (h3 : anyKw (combined_text cp log) waterlow_skin_keywords = false)
    (h4 : containsTxt (combined_text cp log) (txt "faeces") = false)
    (h5 : containsTxt (combined_text cp log) (txt "bowel") = false)
    (h6 : anyKw (combined_text cp log) waterlow_nutrition_keywords = false) :
    (calculate_waterlow cp log (some { age := some 85, gender := some (txt "female") })).score = 12
    ∧ (calculate_waterlow cp log
        (some { age := some 85, gender := some (txt "female") })).risk_level
        = txt "Medium Risk" := by
  have hage : waterlow_age_points (some { age := some 85, gender := some (txt "female") }) = 5 := by
    decide
  have hgen : waterlow_gender_points (some { age := some 85, gender := some (txt "female") }) = 2 := by
    decide
  have hinc : containsTxt (combined_text cp log) (txt "incontinent") = true :=
    containsTxt_of_infix _ _ _ h2 ((containsTxt_iff _ _).mp (by decide))
  have hcont : waterlow_continence_points (combined_text cp log) = 1 := by
    unfold waterlow_continence_points
    simp [hinc, h4, h5]
  have hmob : waterlow_mobility_points (combined_text cp log) = 4 := by
    unfold waterlow_mobility_points
    have hany : anyKw (combined_text cp log) waterlow_mobility_keywords = true := by
      simp [anyKw, waterlow_mobility_keywords, h1]
    simp [hany]
  unfold calculate_waterlow
  simp only [hage, hgen, h3, h6, hcont, hmob, Bool.false_eq_true, if_false]
  norm_num

/-- C4 witness: a concrete care plan realizing the hypotheses. -/
theorem C4_waterlow_example_witness :
    (calculate_waterlow c4_care_plan (txt "")
        (some { age := some 85, gender := some (txt "female") })).score = 12
    ∧ (calculate_waterlow c4_care_plan (txt "")
        (some { age := some 85, gender := some (txt "female") })).risk_level
        = txt "Medium Risk" :=
  C4_waterlow_example c4_care_plan (txt "")
    (by decide) (by decide) (by decide) (by decide) (by decide) (by decide)

/-- C5 (amended): for tabular input with more than 1000 lines, the effective
reducer returns the header plus every third data row starting with the first:
the kept data rows number `⌈n/3⌉` of the `n` original data rows, and the
first data row is always kept (the last one is not in general, and no
profile-driven row-count formula applies). -/
theorem C5_reducer_keeps_every_third (content : Text) (info : CsvProfile)
    (hbig : 1000 < (splitOnChar '\n' content).length) :
    smart_compress_csv content info
      = (match splitOnChar '\n' content with | [] => [] | h :: _ => h)
        ++ txt "\n" ++ joinWith (txt "\n") (takeEvery3 ((splitOnChar '\n' content).drop 1))
    ∧ (takeEvery3 ((splitOnChar '\n' content).drop 1)).length
        = (((splitOnChar '\n' content).length - 1) + 2) / 3
    ∧ (takeEvery3 ((splitOnChar '\n' content).drop 1)).head?
        = ((splitOnChar '\n' content).drop 1).head? := by
  refine ⟨?_, ?_, takeEvery3_head _⟩
  · unfold smart_compress_csv
    rw [if_pos hbig]
  · rw [takeEvery3_length, List.length_drop]

/-- C6: reduction is the identity on inputs the size gate classifies as
small: `is_large_file content = false` implies
`smart_compress_csv content info = content` for every profile. -/
theorem C6_reduce_identity_on_small (content : Text) (info : CsvProfile)
    (hsmall : is_large_file content = false) :
    smart_compress_csv content info = content := by
  apply smart_compress_small
  unfold is_large_file at hsmall
  simp only [Bool.or_eq_false_iff, decide_eq_false_iff_not, not_lt] at hsmall
  omega

/-- C6 witness: a concrete small document passes through unchanged. -/
theorem C6_reduce_identity_on_small_witness :
    smart_compress_csv c6_content (analyze_csv_structure c6_content) = c6_content :=
  C6_reduce_identity_on_small c6_content (analyze_csv_structure c6_content) (by decide)

/-- C7 (amended): the effective size gate returns true exactly when the text
has more than 500 lines or more than 100,000 characters, and documents below
the gate pass through the reduction pipeline unchanged. -/
theorem C7_size_gate (content : Text) (info : CsvProfile) :
    (is_large_file content = true
       ↔ (500 < (splitOnChar '\n' content).length ∨ 100000 < content.length))
    ∧ (is_large_file content = false → smart_compress_csv content info = content) := by
  constructor
  · unfold is_large_file
    simp
  · intro hs
    apply smart_compress_small
    unfold is_large_file at hs
    simp only [Bool.or_eq_false_iff, decide_eq_false_iff_not, not_lt] at hs
    omega

/-- C7 witness: pass-through at a concrete below-gate document. -/
theorem C7_size_gate_witness :
    smart_compress_csv c7_small (analyze_csv_structure c7_small) = c7_small :=
  (C7_size_gate c7_small (analyze_csv_structure c7_small)).2 (by decide)

/-- C8 counterexample: a line containing the dot-separated date token
`12.03.2024` (one of the claimed patterns) produces no date at all: the
extractor's regex knows only slash/hyphen separators, so `dates` stays empty
and no date context is established. -/
theorem C8_counterexample :
    containsTxt c8_log (txt "12.03.2024") = true
    ∧ (extract_daily_data c8_log).dates = []
    ∧ (extract_state c8_log).1 = none := by
  decide

/-- C8 (amended): the `dates` output of the extractor is exactly the
first-seen de-duplication of the per-line matches of the slash/hyphen date
patterns (`line_date`); it never holds duplicates, and the final current-date
context is the last per-line match.  Dot-separated tokens never match. -/
theorem C8_dates_first_seen (daily_log_content : Text) :
    (extract_daily_data daily_log_content).dates
        = first_seen ((splitOnChar '\n' daily_log_content).filterMap line_date)
    ∧ (extract_daily_data daily_log_content).dates.Nodup
    ∧ (extract_state daily_log_content).1
        = ((splitOnChar '\n' daily_log_content).filterMap line_date).getLast? := by
  refine ⟨?_, ?_, ?_⟩
  · unfold extract_daily_data extract_state first_seen
    rw [extract_dates_fold]
  · unfold extract_daily_data extract_state
    rw [extract_dates_fold]
    exact nodup_foldl_insertNew _ _ List.nodup_nil
  · unfold extract_state
    rw [extract_cur_fold]
    simp
theorem splitOnChar_ne_nil (sep : Char) (l : Text) : splitOnChar sep l ≠ [] := by
  cases l with
  | nil => simp [splitOnChar]
  | cons c t =>
      simp only [splitOnChar]
      cases h : splitOnChar sep t with
      | nil => simp
      | cons cur others => by_cases hc : c = sep <;> simp [hc]

theorem splitOnChar_no_sep (sep : Char) :
    ∀ l : Text, sep ∉ l → splitOnChar sep l = [l] := by
  intro l
  induction l with
  | nil => intro _; rfl
  | cons c t ih =>
      intro h
      have hc : ¬(c = sep) := fun he => h (he ▸ List.mem_cons_self c t)
      have ht : sep ∉ t := fun hm => h (List.mem_cons_of_mem _ hm)
      simp [splitOnChar, ih ht, hc]

theorem splitOnChar_sep_cons (sep : Char) :
    ∀ (l r : Text), sep ∉ l →
      splitOnChar sep (l ++ sep :: r) = l :: splitOnChar sep r := by
  intro l
  induction l with
  | nil =>
      intro r _
      simp only [List.nil_append, splitOnChar]
      obtain ⟨cur, others, heq⟩ := List.exists_cons_of_ne_nil (splitOnChar_ne_nil sep r)
      rw [heq]
      simp [← heq]
  | cons c t ih =>
      intro r h
      have hc : ¬(c = sep) := fun he => h (he ▸ List.mem_cons_self c t)
      have ht : sep ∉ t := fun hm => h (List.mem_cons_of_mem _ hm)
      rw [List.cons_append]
      simp only [splitOnChar]
      rw [ih r ht]
      simp [hc]

theorem splitOnChar_joinWith (sep : Char) :
    ∀ ls : List Text, ls ≠ [] → (∀ l ∈ ls, sep ∉ l) →
      splitOnChar sep (joinWith [sep] ls) = ls := by
  intro ls
  induction ls with
  | nil => intro h; exact absurd rfl h
  | cons l rest ih =>
      intro _ hall
      cases rest with
      | nil => exact splitOnChar_no_sep sep l (hall l (by simp))
      | cons l' rest' =>
          have hj : joinWith [sep] (l :: l' :: rest') = l ++ sep :: joinWith [sep] (l' :: rest') := by
            simp [joinWith]
          rw [hj, splitOnChar_sep_cons sep l _ (hall l (by simp)),
              ih (by simp) (fun x hx => hall x (by simp [hx]))]

theorem takeEvery3_replicate_append (x z : α) :
    ∀ k, takeEvery3 (List.replicate (3 * k + 1) x ++ [z]) = List.replicate (k + 1) x := by
  intro k
  induction k with
  | zero => simp [takeEvery3]
  | succ k ih =>
      have h3 : 3 * (k + 1) + 1 = 3 + (3 * k + 1) := by ring
      rw [h3, List.replicate_add, show List.replicate 3 x = [x, x, x] from rfl]
      simp only [List.cons_append, List.nil_append]
      rw [show takeEvery3 (x :: x :: x :: (List.replicate (3 * k + 1) x ++ [z]))
            = x :: takeEvery3 (List.replicate (3 * k + 1) x ++ [z]) from by simp [takeEvery3]]
      rw [ih]
      simp [List.replicate_succ]

theorem c5_no_nl : ∀ l ∈ c5_lines, '\n' ∉ l := by
  intro l hl
  simp only [c5_lines, List.mem_cons, List.mem_append, List.mem_replicate,
    List.mem_singleton, List.not_mem_nil, or_false] at hl
  rcases hl with rfl | ⟨-, rfl⟩ | rfl <;> decide

theorem c5_split : splitOnChar '\n' c5_content = c5_lines :=
  splitOnChar_joinWith '\n' c5_lines (List.cons_ne_nil _ _) c5_no_nl

theorem c5_lines_length : c5_lines.length = 1002 := by
  simp only [c5_lines, List.length_cons, List.length_append, List.length_replicate,
    List.length_singleton, List.length_nil]

theorem c5_big : 1000 < (splitOnChar '\n' c5_content).length := by
  rw [c5_split, c5_lines_length]
  omega

theorem c5_large : is_large_file c5_content = true := by
  have h : 500 < (splitOnChar '\n' c5_content).length := by
    rw [c5_split, c5_lines_length]; omega
  unfold is_large_file
  rw [Bool.or_eq_true]
  exact Or.inl (decide_eq_true h)

theorem c5_last : (splitOnChar '\n' c5_content).getLast? = some (txt "z") := by
  rw [c5_split,
    show c5_lines = (txt "h" :: List.replicate 1000 (txt "x")) ++ [txt "z"] from rfl,
    List.getLast?_concat]

theorem c5_compressed :
    splitOnChar '\n' (smart_compress_csv c5_content (analyze_csv_structure c5_content))
      = txt "h" :: List.replicate 334 (txt "x") := by
  have hb : (1000 : Nat) < c5_lines.length := by rw [c5_lines_length]; omega
  simp only [smart_compress_csv, c5_split]
  rw [if_pos hb]
  show splitOnChar '\n'
      (txt "h" ++ txt "\n"
        ++ joinWith (txt "\n") (takeEvery3 (List.replicate 1000 (txt "x") ++ [txt "z"])))
    = txt "h" :: List.replicate 334 (txt "x")
  rw [show (1000 : Nat) = 3 * 333 + 1 from rfl, takeEvery3_replicate_append]
  exact splitOnChar_joinWith '\n' (txt "h" :: List.replicate 334 (txt "x")) (List.cons_ne_nil _ _)
    (by
      intro l hl
      simp only [List.mem_cons, List.mem_replicate] at hl
      rcases hl with rfl | ⟨-, rfl⟩ <;> decide)

theorem joinWith_replicate_length (sep a : Text) :
    ∀ n, (joinWith sep (List.replicate (n + 1) a)).length
      = (n + 1) * a.length + n * sep.length := by
  intro n
  induction n with
  | zero => simp [joinWith]
  | succ n ih =>
      rw [show List.replicate (n + 1 + 1) a = a :: List.replicate (n + 1) a from rfl]
      rw [show List.replicate (n + 1) a = a :: List.replicate n a from rfl]
      rw [show joinWith sep (a :: a :: List.replicate n a)
            = a ++ sep ++ joinWith sep (a :: List.replicate n a) from rfl]
      rw [show (a :: List.replicate n a) = List.replicate (n + 1) a from rfl]
      simp only [List.length_append]
      rw [ih]
      ring

theorem c7_no_nl : ∀ l ∈ c7_lines, '\n' ∉ l := by
  intro l hl
  simp only [c7_lines, List.mem_replicate] at hl
  rcases hl with ⟨-, rfl⟩
  decide

theorem c7_split : splitOnChar '\n' c7_content = c7_lines := by
  have h := splitOnChar_joinWith '\n' c7_lines ?hne c7_no_nl
  · exact h
  case hne =>
    rw [show c7_lines = txt "a" :: List.replicate 501 (txt "a") from rfl]
    exact List.cons_ne_nil _ _

theorem c7_large : is_large_file c7_content = true := by
  have h : 500 < (splitOnChar '\n' c7_content).length := by
    rw [c7_split, show c7_lines.length = 502 from by
      simp only [c7_lines, List.length_replicate]]
    omega
  unfold is_large_file
  rw [Bool.or_eq_true]
  exact Or.inl (decide_eq_true h)

theorem c7_length : c7_content.length = 1003 := by
  have h := joinWith_replicate_length (txt "\n") (txt "a") 501
  rw [show (501 + 1 : Nat) = 502 from rfl] at h
  rw [show c7_content = joinWith (txt "\n") (List.replicate 502 (txt "a")) from rfl, h]
  decide

/-- C5 counterexample: `c5_content` is oversized (`is_large_file` true, 1002
lines), its last data row is the distinct row `z`, yet the reduced output
does not contain that row at all — the effective reducer keeps
`lines[1::3]`, which drops the final row whenever `(n-2) % 3 ≠ 0` (the first
data row `x` is kept).  This refutes the claimed
`max(10, floor(rows × recommended_compression_ratio))` row-count bound
together with the first-and-last-rows guarantee; the effective structure
profile does not even carry a compression-recommendation field. -/
theorem C5_counterexample :
    is_large_file c5_content = true
    ∧ (splitOnChar '\n' c5_content).getLast? = some (txt "z")
    ∧ txt "x" ∈ splitOnChar '\n' (smart_compress_csv c5_content (analyze_csv_structure c5_content))
    ∧ txt "z" ∉ splitOnChar '\n' (smart_compress_csv c5_content (analyze_csv_structure c5_content)) := by
  refine ⟨c5_large, c5_last, ?_, ?_⟩
  · rw [c5_compressed]
    simp only [List.mem_cons, List.mem_replicate]
    exact Or.inr ⟨by norm_num, trivial⟩
  · rw [c5_compressed]
    simp only [List.mem_cons, List.mem_replicate]
    rintro (h | ⟨-, h⟩) <;> exact absurd h (by decide)

/-- C5 witness: the kept-row count at the concrete oversized input. -/
theorem C5_reducer_keeps_every_third_witness :
    (takeEvery3 ((splitOnChar '\n' c5_content).drop 1)).length
      = (((splitOnChar '\n' c5_content).length - 1) + 2) / 3 :=
  (C5_reducer_keeps_every_third c5_content (analyze_csv_structure c5_content) c5_big).2.1

/-- C7 counterexample: `c7_content` has only 1003 characters — far below any
reading of "about 50,000" — yet `is_large_file` returns `true` (it has 502
lines).  The effective gate is not a ~50,000-character threshold. -/
theorem C7_counterexample :
    is_large_file c7_content = true ∧ c7_content.length = 1003 :=
  ⟨c7_large, c7_length⟩

/-- C9: the aggregated report carries a priority alert for an instrument if
and only if that instrument's entry is a successful record whose risk-level
string contains `high` or `severe` (case-insensitive substring test) and
whose computed score is nonzero.  In particular a high-labelled instrument
with score 0 never generates an alert, and errored instruments never do. -/
theorem C9_priority_alert_iff (cp log : Text) (wl : Option (List ℚ)) (h : Option ℚ)
    (rd : Option ResidentData) (t : Tool) :
    (∃ a ∈ (calculate_all_assessments cp log wl h rd).summary.priority_alerts, a.tool = t)
    ↔ (∃ r, entry_of cp log wl h rd t = ToolEntry.ok r
          ∧ risk_is_high r.risk_level = true ∧ 0 < r.score) := by
  rw [calculate_all_assessments, agg_alerts_eq]
  simp only [ReportSummary.priority_alerts, List.nil_append]
  constructor
  · rintro ⟨a, ha, hat⟩
    rw [List.mem_filterMap] at ha
    obtain ⟨t', _, hao⟩ := ha
    unfold alert_of at hao
    cases hrt : run_tool t' cp log wl h rd with
    | error e => rw [hrt] at hao; exact absurd hao (by simp)
    | ok r =>
        rw [hrt] at hao
        dsimp only at hao
        by_cases hh : risk_is_high r.risk_level = true
        · by_cases hs : 0 < r.score
          · rw [if_pos hh, if_pos hs] at hao
            have ha' : a = mkAlert t' r := by
              injection hao with hao'
              exact hao'.symm
            have ht' : t' = t := by rw [ha'] at hat; exact hat
            subst ht'
            refine ⟨r, ?_, hh, hs⟩
            unfold entry_of
            rw [hrt]
          · rw [if_pos hh, if_neg hs] at hao
            exact absurd hao (by simp)
        · rw [if_neg hh] at hao
          exact absurd hao (by simp)
  · rintro ⟨r, her, hh, hs⟩
    have hrt : run_tool t cp log wl h rd = .ok r := by
      unfold entry_of at her
      cases hrun : run_tool t cp log wl h rd with
      | ok a => rw [hrun] at her; injection her with he; rw [he]
      | error e => rw [hrun] at her; exact absurd her (by simp)
    refine ⟨mkAlert t r, ?_, rfl⟩
    rw [List.mem_filterMap]
    refine ⟨t, mem_assessment_tools t, ?_⟩
    unfold alert_of
    rw [hrt]
    dsimp only
    rw [if_pos hh, if_pos hs]

/-- C10: for every input, the `pressure_ulcer_ppu` entry of the aggregated
report is exactly the error entry with score 0 and risk level
`Unable to assess` (from the `KeyError('items')` on the missing form), and
nothing else is ever stored under that key: the standalone `calculate_ppu`
scorer is unreachable through the aggregator. -/
theorem C10_ppu_always_error (cp log : Text) (wl : Option (List ℚ)) (h : Option ℚ)
    (rd : Option ResidentData) (e : ToolEntry) :
    (Tool.pressure_ulcer_ppu, e) ∈ (calculate_all_assessments cp log wl h rd).assessments
    ↔ e = ToolEntry.err (txt "Form creation error: \x27items\x27") 0 (txt "Unable to assess") := by
  have hppu : entry_of cp log wl h rd Tool.pressure_ulcer_ppu
      = ToolEntry.err (txt "Form creation error: \x27items\x27") 0 (txt "Unable to assess") := by
    rfl
  rw [calculate_all_assessments, agg_assessments_eq]
  simp only [AssessmentReport.assessments, List.nil_append, List.mem_map]
  constructor
  · rintro ⟨t, _, hpair⟩
    have ht : t = Tool.pressure_ulcer_ppu := congrArg Prod.fst hpair
    have he : entry_of cp log wl h rd t = e := congrArg Prod.snd hpair
    rw [ht, hppu] at he
    exact he.symm
  · rintro rfl
    exact ⟨Tool.pressure_ulcer_ppu, mem_assessment_tools _, by rw [hppu]⟩
